import Mathlib

/-
Verification of `ecs_composex/cloudmap/cloudmap_x_resources.py`, the module that
registers x-resources into an AWS CloudMap namespace.  The Python module is
embedded shallowly: troposphere template objects become Lean structures, the
mutation of the namespace's stack becomes explicit state passing, Python dicts
become association lists that keep insertion order, and raised exceptions
become an `Option PyErr` component of the result.
-/

/-- Values that can appear in a CloudFormation template property: plain
strings, `Ref` to a titled object, opaque resolved import values
(`FindInMap`/`GetAtt` expressions are not inspected by this module, so they
are represented by an opaque tag), and troposphere's `NoValue`. -/
inductive CfnValue where
  | str : String → CfnValue
  | ref : String → CfnValue
  | importVal : Nat → CfnValue
  | noValue : CfnValue
deriving DecidableEq

/-- A troposphere `Parameter`: only its title is observed by this module. -/
structure TplParameter where
  title : String
deriving DecidableEq

/-- A key of `attributes_outputs`: an ecs-composex `Parameter` carrying a
title and an optional alternate `return_value` name. -/
structure OutputParam where
  title : String
  return_value : Option String := none
deriving DecidableEq

/-- A resolution descriptor (`attributes_outputs` value): pairs the
`ImportParameter` to declare when the source is in-template with the
`ImportValue` to use. -/
structure AttributePointer where
  ImportParameter : TplParameter
  ImportValue : CfnValue
deriving DecidableEq

/-- `troposphere.servicediscovery.DnsRecord`.  `Type_` models the "Type"
property of the source object (`Type` itself is reserved in Lean). -/
structure DnsRecordObj where
  Type_ : String
  TTL : String
deriving DecidableEq

/-- `troposphere.servicediscovery.DnsConfig`. -/
structure DnsConfigObj where
  DnsRecords : List DnsRecordObj
  NamespaceId : CfnValue
deriving DecidableEq

/-- `troposphere.servicediscovery.Service`: the properties this module sets.
`none` models an absent property. -/
structure ServiceObj where
  Description : String
  NamespaceId : CfnValue
  Type_ : Option String := none
  DnsConfig : Option DnsConfigObj := none
  Name : Option String := none
deriving DecidableEq

/-- `troposphere.servicediscovery.Instance`. -/
structure InstanceObj where
  InstanceAttributes : List (String × CfnValue)
  ServiceId : CfnValue
deriving DecidableEq

/-- A resource held in a template's `resources` dict. -/
inductive TplResource where
  | service : ServiceObj → TplResource
  | inst : InstanceObj → TplResource
  | other : TplResource
deriving DecidableEq

/-- The mutable troposphere `Template` of the namespace's stack: resources by
title, declared parameters, and mappings.  Mapping payloads are opaque to this
module, so they are represented by a tag. -/
structure Template where
  resources : List (String × TplResource) := []
  parameters : List TplParameter := []
  mappings : List (String × Nat) := []
deriving DecidableEq

/-- The namespace's `ComposeXStack`: its template and its `Parameters`
stack-input map. -/
structure Stack where
  stack_template : Template := {}
  Parameters : List (String × CfnValue) := []
deriving DecidableEq

/-- `ecs_composex.cloudmap.cloudmap_stack.PrivateNamespace`, as observed here:
its name, zone name, whether it is created in this template (`cfn_resource`
holds the title of the created resource), and the `ImportValue` of its
`PRIVATE_NAMESPACE_ID` output used when it is looked up. -/
structure PrivateNamespace where
  name : String
  zone_name : String
  cfn_resource : Option String := none
  private_namespace_id_import : CfnValue := CfnValue.noValue
deriving DecidableEq

/-- An x-resource, as observed by this module. `cfn_resource` is the
truthiness of the resource's `cfn_resource` attribute (in-template vs looked
up); `db_cluster_endpoint_param` is `some` exactly when the Python object
`hasattr(resource, "db_cluster_endpoint_param")`. -/
structure XResource where
  name : String
  module_name : String
  logical_name : String
  cfn_resource : Bool
  mapping_key : String
  attributes_outputs : List (OutputParam × AttributePointer) := []
  cloudmap_dns_supported : Bool := false
  db_cluster_endpoint_param : Option OutputParam := none
deriving DecidableEq

/-- `ComposeXSettings`, as observed here: the global `mappings` table. -/
structure ComposeXSettings where
  mappings : List (String × Nat) := []
deriving DecidableEq

/-- The user-supplied `x-cloudmap` settings dict.  Each field is `none` when
the key is absent from the dict; nested dicts are association lists so that
Python truthiness (empty dict is falsy) is representable. -/
structure CloudmapSettings where
  Namespace : Option String := none
  ForceRegister : Option Bool := none
  ReturnValues : Option (List (String × String)) := none
  AdditionalAttributes : Option (List (String × CfnValue)) := none
  DnsSettings : Option (List (String × String)) := none
deriving DecidableEq

/-- Python exceptions raised by this module.  Both constructors model
Python's `KeyError`: `keyError` a plain dict-miss carrying the key,
`keyErrorArgs` the two-argument `raise KeyError(message, available)` of
`process_return_values`.  In Python, `KeyError` is a subclass of
`LookupError`. -/
inductive PyErr where
  | keyError : String → PyErr
  | keyErrorArgs : String → List String → PyErr
deriving DecidableEq

/-- Every error this module raises is a Python `KeyError`, and `KeyError`
is a subclass of `LookupError`, so every raised error is a `LookupError`. -/
def PyErr.isLookupError : PyErr → Bool
  | PyErr.keyError _ => true
  | PyErr.keyErrorArgs _ _ => true

/-- How `handle_resource_cloudmap_settings` returned: an exception propagated,
one of the three silent skips fired, or the main path completed. -/
inductive RegOutcome where
  | raised : PyErr → RegOutcome
  | skippedNamespace : RegOutcome
  | skippedLookup : RegOutcome
  | skippedExists : RegOutcome
  | completed : RegOutcome
deriving DecidableEq

/-- Result of one call to `handle_resource_cloudmap_settings`: the stack state
after the call, the `LOG.warning` messages emitted, and how it returned. -/
structure HandleResult where
  stack : Stack
  warnings : List String
  outcome : RegOutcome
deriving DecidableEq

/- Association-list operations matching Python dict behaviour. -/

/-- Python dict read: first (unique) binding of the key. -/
def alookup {α : Type} : List (String × α) → String → Option α
  | [], _ => none
  | (k, v) :: rest, key => if k = key then some v else alookup rest key

/-- Python dict write `d[k] = v`: replace the binding in place if the key
exists, otherwise append (insertion order preserved). -/
def aset {α : Type} : List (String × α) → String → α → List (String × α)
  | [], key, v => [(key, v)]
  | (k, w) :: rest, key, v =>
    if k = key then (key, v) :: rest else (k, w) :: aset rest key v

/-- Python `needle in hay` on lists of characters: `listStarts` is the
prefix test, `listIn` the substring test. -/
def listStarts : List Char → List Char → Bool
  | [], _ => true
  | _ :: _, [] => false
  | a :: as, b :: bs => a == b && listStarts as bs

/-- Substring containment on character lists. -/
def listIn (needle : List Char) : List Char → Bool
  | [] => needle.isEmpty
  | b :: bs => listStarts needle (b :: bs) || listIn needle bs

/-- Python `needle in hay` on strings. -/
def strIn (needle hay : String) : Bool := listIn needle.data hay.data

/-- Python `s.startswith(pre)`. -/
def strStarts (s pre : String) : Bool := listStarts pre.data s.data

/-- Truthiness of an optional dict field: present and non-empty. -/
def truthyDict {α : Type} : Option (List α) → Bool
  | some l => !l.isEmpty
  | none => false

/-- Truthiness of the optional `ForceRegister` flag. -/
def truthyFlag : Option Bool → Bool
  | some b => b
  | none => false

/-- Modelled from the spec: `add_parameters` lives in `ecs_composex.common`,
which is not part of the given sources.  Spec 4.1 step 4 says "ensure its
parameter is declared on the template": each parameter is declared on it
unless one with the same title already is. -/
def hasParamTitle : List TplParameter → String → Bool
  | [], _ => false
  | p :: rest, t => if p.title = t then true else hasParamTitle rest t

/-- Modelled from the spec: `add_parameters` (see `hasParamTitle`). -/
def add_parameters (tpl : Template) : List TplParameter → Template
  | [] => tpl
  | p :: rest =>
    add_parameters
      (if hasParamTitle tpl.parameters p.title then tpl
       else { tpl with parameters := tpl.parameters ++ [p] }) rest

/-- Modelled from the spec: `add_update_mapping` lives in
`ecs_composex.common`, which is not part of the given sources.  Spec 4.1
step 4 says "ensure the external lookup mapping table entry is
present/updated": insert or overwrite the mapping for the key. -/
def add_update_mapping (tpl : Template) (key : String) (val : Nat) : Template :=
  { tpl with mappings := aset tpl.mappings key val }

/-- The inner `for attribute_param in resource.attributes_outputs.keys()`
search of `process_return_values`: first output parameter whose `title`
equals the key, or whose `return_value` is truthy and equals the key. -/
def matchesKey (p : OutputParam) (key : String) : Bool :=
  if p.title = key then true
  else
    match p.return_value with
    | some rv => if rv = "" then false else if rv = key then true else false
    | none => false

/-- Linear search used by `process_return_values` (for-break-else). -/
def findAttributeParam :
    List (OutputParam × AttributePointer) → String → Option (OutputParam × AttributePointer)
  | [], _ => none
  | (p, ptr) :: rest, key =>
    if matchesKey p key then some (p, ptr) else findAttributeParam rest key

/-- Python dict lookup keyed by an `OutputParam`
(`resource.attributes_outputs[attribute_param]`). -/
def lookupByParam : List (OutputParam × AttributePointer) → OutputParam → Option AttributePointer
  | [], _ => none
  | (q, ptr) :: rest, p => if q = p then some ptr else lookupByParam rest p

/-- Valid output key titles, as listed in the error payload of
`process_return_values`. -/
def availableKeys (resource : XResource) : List String :=
  resource.attributes_outputs.map (fun p => p.1.title)

/-- The `KeyError` payload raised by `process_return_values` for an
unmatched `ReturnValues` key. -/
def returnValueErr (resource : XResource) (key : String) : PyErr :=
  PyErr.keyErrorArgs
    (resource.module_name ++ "." ++ resource.name ++ " - ReturnValue " ++ key
      ++ " not found. Available")
    (availableKeys resource)

/-- `process_return_values` (source lines 77-127).  Iterates the
`ReturnValues` dict in order; for each entry either mutates the stack and the
instance attributes, or stops with the exception that propagates.  The first
component of the result is the stack (the namespace's stack is mutated in
place in the source), the second the accumulated `InstanceAttributes`, the
third the raised exception, if any.  Note the source writes the attribute
under `key` (the output key) in the in-template branch but under `value`
(the desired attribute name) in the looked-up branch. -/
def process_return_values (resource : XResource) (settings : ComposeXSettings) :
    List (String × String) → Stack → List (String × CfnValue) →
    Stack × List (String × CfnValue) × Option PyErr
  | [], stack, attrs => (stack, attrs, none)
  | (key, value) :: rest, stack, attrs =>
    match findAttributeParam resource.attributes_outputs key with
    | none => (stack, attrs, some (returnValueErr resource key))
    | some (_, ptr) =>
      if resource.cfn_resource then
        let tpl := add_parameters stack.stack_template [ptr.ImportParameter]
        let sParams := aset stack.Parameters ptr.ImportParameter.title ptr.ImportValue
        process_return_values resource settings rest ⟨tpl, sParams⟩
          (aset attrs key (CfnValue.ref ptr.ImportParameter.title))
      else
        match alookup settings.mappings resource.mapping_key with
        | none => (stack, attrs, some (PyErr.keyError resource.mapping_key))
        | some m =>
          let tpl := add_update_mapping stack.stack_template resource.mapping_key m
          process_return_values resource settings rest ⟨tpl, stack.Parameters⟩
            (aset attrs value ptr.ImportValue)

/-- `process_additional_attributes` (source lines 130-140): copy each entry
into the instance attributes, skipping keys that start with "AWS_". -/
def process_additional_attributes :
    List (String × CfnValue) → List (String × CfnValue) → List (String × CfnValue)
  | [], attrs => attrs
  | (key, value) :: rest, attrs =>
    if strStarts key ("AWS_") then process_additional_attributes rest attrs
    else process_additional_attributes rest (aset attrs key value)

/-- The hostname before zone placement: `dns_settings["Hostname"]` when that
key is set to a truthy value, else the resource's logical name. -/
def rawHostname (resource : XResource) (dns_settings : List (String × String)) : String :=
  match alookup dns_settings ("Hostname") with
  | some v => if v = "" then resource.logical_name else v
  | none => resource.logical_name

/-- `process_dns_config` (source lines 18-74).  Computes the hostname, sets
`DnsConfig` (one CNAME record, TTL "15", `NamespaceId = NoValue`) and `Name`
on the service, then, if the resource has a `db_cluster_endpoint_param`,
resolves it like a return value and records `AWS_INSTANCE_CNAME` on the
instance.  Returns the updated service, instance, stack, and the raised
exception, if any. -/
def process_dns_config (ns : PrivateNamespace) (resource : XResource)
    (dns_settings : List (String × String)) (settings : ComposeXSettings)
    (service : ServiceObj) (inst : InstanceObj) (stack : Stack) :
    ServiceObj × InstanceObj × Stack × Option PyErr :=
  let hostname0 := rawHostname resource dns_settings
  let hostname :=
    if strIn ns.zone_name hostname0 then hostname0
    else hostname0 ++ "." ++ ns.zone_name
  let record : DnsRecordObj := { Type_ := "CNAME", TTL := "15" }
  let config : DnsConfigObj := { DnsRecords := [record], NamespaceId := CfnValue.noValue }
  let service1 := { service with DnsConfig := some config, Name := some hostname }
  match resource.db_cluster_endpoint_param with
  | none => (service1, inst, stack, none)
  | some p =>
    match lookupByParam resource.attributes_outputs p with
    | none => (service1, inst, stack, some (PyErr.keyError p.title))
    | some ptr =>
      if resource.cfn_resource then
        let tpl := add_parameters stack.stack_template [ptr.ImportParameter]
        let sParams := aset stack.Parameters ptr.ImportParameter.title ptr.ImportValue
        let inst1 :=
          { inst with
            InstanceAttributes :=
              aset inst.InstanceAttributes ("AWS_INSTANCE_CNAME")
                (CfnValue.ref ptr.ImportParameter.title) }
        (service1, inst1, ⟨tpl, sParams⟩, none)
      else
        match alookup settings.mappings resource.mapping_key with
        | none => (service1, inst, stack, some (PyErr.keyError resource.mapping_key))
        | some m =>
          let tpl := add_update_mapping stack.stack_template resource.mapping_key m
          let inst1 :=
            { inst with
              InstanceAttributes :=
                aset inst.InstanceAttributes ("AWS_INSTANCE_CNAME") ptr.ImportValue }
          (service1, inst1, ⟨tpl, stack.Parameters⟩, none)

/-- The deterministic title `{module_name}{logical_name}Service`. -/
def serviceTitle (resource : XResource) : String :=
  resource.module_name ++ resource.logical_name ++ "Service"

/-- The `LOG.warning` message for DNS settings on a DNS-unsupported
resource. -/
def warnMsgFor (resource : XResource) : String :=
  resource.module_name ++ "." ++ resource.name
    ++ " does not support DnsSettings for x-cloudmap."

/-- Adding the Service then the Instance to the stack template
(source lines 210-211). -/
def addServiceInstance (stack : Stack) (title : String) (svc : ServiceObj)
    (inst : InstanceObj) : Stack :=
  { stack with
    stack_template :=
      { stack.stack_template with
        resources :=
          aset (aset stack.stack_template.resources title (TplResource.service svc))
            (title ++ "Instance") (TplResource.inst inst) } }

/-- The `Service` object constructed from `service_props` at source line 189:
description, namespace id pointer (a `Ref` to the namespace's own resource
when it is in-template, else its resolved private-namespace-id output), and
`Type = "HTTP"`. -/
def mkService (ns : PrivateNamespace) (resource : XResource) : ServiceObj :=
  { Description := resource.name,
    NamespaceId :=
      match ns.cfn_resource with
      | some t => CfnValue.ref t
      | none => ns.private_namespace_id_import,
    Type_ := some ("HTTP") }

/-- The `Instance` object constructed at source line 192: the accumulated
instance attributes plus `ServiceId = Ref(resource_service)`. -/
def mkInstance0 (attrs : List (String × CfnValue)) (title : String) : InstanceObj :=
  { InstanceAttributes := attrs, ServiceId := CfnValue.ref title }

/-- The `ReturnValues` step of the main path (source lines 177-184): run
`process_return_values` when the key is set and truthy, else leave the stack
and the empty attribute dict unchanged. -/
def rvStep (resource : XResource) (cloudmap_settings : CloudmapSettings)
    (settings : ComposeXSettings) (stack : Stack) :
    Stack × List (String × CfnValue) × Option PyErr :=
  if truthyDict cloudmap_settings.ReturnValues then
    process_return_values resource settings
      (cloudmap_settings.ReturnValues.getD []) stack []
  else (stack, [], none)

/-- The `AdditionalAttributes` step (source lines 185-188). -/
def effAttrs (cloudmap_settings : CloudmapSettings)
    (attrs1 : List (String × CfnValue)) : List (String × CfnValue) :=
  if truthyDict cloudmap_settings.AdditionalAttributes then
    process_additional_attributes (cloudmap_settings.AdditionalAttributes.getD []) attrs1
  else attrs1

/-- The tail of the main path (source lines 189-211), after the
`ReturnValues` step succeeded with stack `stack1` and attributes `attrs1`.
The source constructs the `Service` object from `service_props` at line 189
and only afterwards, inside the DNS branch, executes
`del service_props["Type"]` (line 195); `service_props` is never read again,
so the constructed Service keeps its `Type` property — the embedding
therefore carries the already-built object through unchanged. -/
def handle_after (ns : PrivateNamespace) (resource : XResource)
    (cloudmap_settings : CloudmapSettings) (settings : ComposeXSettings)
    (stack1 : Stack) (attrs1 : List (String × CfnValue)) (title : String) :
    HandleResult :=
  if truthyDict cloudmap_settings.DnsSettings && resource.cloudmap_dns_supported then
    match
      process_dns_config ns resource (cloudmap_settings.DnsSettings.getD [])
        settings (mkService ns resource) (mkInstance0 (effAttrs cloudmap_settings attrs1) title)
        stack1 with
    | (_, _, stack2, some e) => ⟨stack2, [], RegOutcome.raised e⟩
    | (svc, inst1, stack2, none) =>
      ⟨addServiceInstance stack2 title svc inst1, [], RegOutcome.completed⟩
  else if !resource.cloudmap_dns_supported && truthyDict cloudmap_settings.DnsSettings then
    ⟨addServiceInstance stack1 title (mkService ns resource)
        (mkInstance0 (effAttrs cloudmap_settings attrs1) title),
      [warnMsgFor resource], RegOutcome.completed⟩
  else
    ⟨addServiceInstance stack1 title (mkService ns resource)
        (mkInstance0 (effAttrs cloudmap_settings attrs1) title),
      [], RegOutcome.completed⟩

/-- The main path of `handle_resource_cloudmap_settings` after the three
guards (source lines 163-211). -/
def handle_core (ns : PrivateNamespace) (resource : XResource)
    (cloudmap_settings : CloudmapSettings) (settings : ComposeXSettings)
    (stack : Stack) (title : String) : HandleResult :=
  match rvStep resource cloudmap_settings settings stack with
  | (stack1, _, some e) => ⟨stack1, [], RegOutcome.raised e⟩
  | (stack1, attrs1, none) =>
    handle_after ns resource cloudmap_settings settings stack1 attrs1 title

/-- `handle_resource_cloudmap_settings` (source lines 143-211).  The stack
argument models `namespace.stack`; the result carries the stack after the
call, the warnings emitted, and how the call returned. -/
def handle_resource_cloudmap_settings (ns : PrivateNamespace) (resource : XResource)
    (cloudmap_settings : CloudmapSettings) (settings : ComposeXSettings)
    (stack : Stack) : HandleResult :=
  match cloudmap_settings.Namespace with
  | none => ⟨stack, [], RegOutcome.raised (PyErr.keyError ("Namespace"))⟩
  | some nsv =>
    if nsv ≠ ns.name then ⟨stack, [], RegOutcome.skippedNamespace⟩
    else if !resource.cfn_resource && !truthyFlag cloudmap_settings.ForceRegister then
      ⟨stack, [], RegOutcome.skippedLookup⟩
    else if (alookup stack.stack_template.resources (serviceTitle resource)).isSome then
      ⟨stack, [], RegOutcome.skippedExists⟩
    else handle_core ns resource cloudmap_settings settings stack (serviceTitle resource)

/-- Service stored in the stack template under a title, when present. -/
def serviceAt (stack : Stack) (title : String) : Option ServiceObj :=
  match alookup stack.stack_template.resources title with
  | some (TplResource.service s) => some s
  | _ => none

/-- Instance stored in the stack template under a title, when present. -/
def instanceAt (stack : Stack) (title : String) : Option InstanceObj :=
  match alookup stack.stack_template.resources title with
  | some (TplResource.inst i) => some i
  | _ => none

/- Concrete inputs used to evaluate the embedding on the spec's scenarios. -/

/-- Namespace for the DNS-supported registration scenario: in-template,
zone `svc.local`. -/
def c1ns : PrivateNamespace :=
  { name := "ns1", zone_name := "svc.local",
    cfn_resource := some ("CloudMapVPCNamespace") }

/-- Resource for the DNS-supported registration scenario: in-template,
module `rds`, logical name `Cluster1`, DNS-supported, no cluster endpoint
attribute. -/
def c1res : XResource :=
  { name := "db1", module_name := "rds", logical_name := "Cluster1",
    cfn_resource := true, mapping_key := "rds",
    cloudmap_dns_supported := true }

/-- Settings with a matching namespace and a non-empty `DnsSettings` dict. -/
def c1cs : CloudmapSettings :=
  { Namespace := some ("ns1"), DnsSettings := some [("Hostname", "db")] }

/-- Result of the DNS-supported registration on an empty stack. -/
def c1run : HandleResult :=
  handle_resource_cloudmap_settings c1ns c1res c1cs ⟨[]⟩ ⟨{}, []⟩

/-- Namespace of the spec's end-to-end scenario (`ns1`, zone `svc.local`,
in-template). -/
def c2ns : PrivateNamespace :=
  { name := "ns1", zone_name := "svc.local",
    cfn_resource := some ("CloudMapVPCNamespace") }

/-- Resource of the spec's end-to-end scenario: in-template `rds.Cluster1`,
DNS-supported, with an `Endpoint` output that is also the cluster endpoint
attribute. -/
def c2res : XResource :=
  { name := "db1", module_name := "rds", logical_name := "Cluster1",
    cfn_resource := true, mapping_key := "rds",
    attributes_outputs :=
      [(⟨"Endpoint", none⟩, ⟨⟨"Cluster1Endpoint"⟩, CfnValue.importVal 0⟩)],
    cloudmap_dns_supported := true,
    db_cluster_endpoint_param := some ⟨"Endpoint", none⟩ }

/-- Settings of the spec's end-to-end scenario, with `DnsSettings` the empty
dict, exactly as written in the spec. -/
def c2cs : CloudmapSettings :=
  { Namespace := some ("ns1"), ReturnValues := some [("Endpoint", "DB_ENDPOINT")],
    DnsSettings := some [] }

/-- Result of the end-to-end scenario on an empty stack. -/
def c2run : HandleResult :=
  handle_resource_cloudmap_settings c2ns c2res c2cs ⟨[]⟩ ⟨{}, []⟩

/-- In-template resource with one `Endpoint` output, for the `ReturnValues`
branch comparison. -/
def c3res : XResource :=
  { name := "db1", module_name := "rds", logical_name := "Cluster1",
    cfn_resource := true, mapping_key := "rds",
    attributes_outputs :=
      [(⟨"Endpoint", none⟩, ⟨⟨"Cluster1Endpoint"⟩, CfnValue.importVal 0⟩)] }

/-- The same resource, looked up instead of in-template. -/
def c3resLookup : XResource := { c3res with cfn_resource := false }

/-- Global settings holding a mapping entry for the `rds` mapping key. -/
def c3gs : ComposeXSettings := ⟨[("rds", 7)]⟩

/-- In-template resource with one `Endpoint` output, for the unmatched-key
witness. -/
def c4res : XResource :=
  { name := "db1", module_name := "rds", logical_name := "Cluster1",
    cfn_resource := true, mapping_key := "rds",
    attributes_outputs :=
      [(⟨"Endpoint", none⟩, ⟨⟨"Cluster1Endpoint"⟩, CfnValue.importVal 0⟩)] }

/-- An `AdditionalAttributes` dict with one reserved and one plain key. -/
def c5add : List (String × CfnValue) :=
  [("AWS_X", CfnValue.str ("a")), ("color", CfnValue.str ("blue"))]

/-- Pre-existing instance attributes for the `AdditionalAttributes`
witness. -/
def c5base : List (String × CfnValue) := [("AWS_X", CfnValue.str ("keep"))]

/-- Namespace named `ns1`, for the namespace-mismatch witness. -/
def c6ns : PrivateNamespace := { name := "ns1", zone_name := "svc.local" }

/-- In-template resource, for the namespace-mismatch witness. -/
def c6res : XResource :=
  { name := "db1", module_name := "rds", logical_name := "Cluster1",
    cfn_resource := true, mapping_key := "rds" }

/-- Settings naming a different namespace. -/
def c6cs : CloudmapSettings := { Namespace := some ("other") }

/-- In-template namespace for the idempotence witness. -/
def c7ns : PrivateNamespace :=
  { name := "ns1", zone_name := "svc.local",
    cfn_resource := some ("CloudMapVPCNamespace") }

/-- In-template resource for the idempotence witness. -/
def c7res : XResource :=
  { name := "db1", module_name := "rds", logical_name := "Cluster1",
    cfn_resource := true, mapping_key := "rds" }

/-- Minimal matching settings for the idempotence witness. -/
def c7cs : CloudmapSettings := { Namespace := some ("ns1") }

/-- Namespace with zone `example.com`, as in the spec's hostname examples. -/
def c8ns : PrivateNamespace := { name := "ns1", zone_name := "example.com" }

/-- Resource with logical name `db1`, as in the spec's hostname examples. -/
def c8res : XResource :=
  { name := "db1", module_name := "rds", logical_name := "db1",
    cfn_resource := true, mapping_key := "rds" }

/-- A service object handed to `process_dns_config` in the hostname
witness. -/
def c8svc : ServiceObj := { Description := "db1", NamespaceId := CfnValue.noValue }

/-- An instance object handed to `process_dns_config` in the hostname
witness. -/
def c8inst : InstanceObj := { InstanceAttributes := [], ServiceId := CfnValue.noValue }

/-- In-template namespace for the DNS-unsupported witness. -/
def c9ns : PrivateNamespace :=
  { name := "ns1", zone_name := "svc.local",
    cfn_resource := some ("CloudMapVPCNamespace") }

/-- A resource that does not support DNS discovery. -/
def c9res : XResource :=
  { name := "bucket1", module_name := "s3", logical_name := "Bucket1",
    cfn_resource := true, mapping_key := "s3" }

/-- Matching settings with a non-empty `DnsSettings` dict. -/
def c9cs : CloudmapSettings :=
  { Namespace := some ("ns1"), DnsSettings := some [("Hostname", "db")] }

/-- Settings without a `Namespace` key at all. -/
def c10cs : CloudmapSettings := { ForceRegister := some true }

/-- Namespace for the missing-`Namespace`-key witness. -/
def c10ns : PrivateNamespace := { name := "ns1", zone_name := "svc.local" }

/-- Looked-up resource, showing the missing-key access happens before the
eligibility guard. -/
def c10res : XResource :=
  { name := "db1", module_name := "rds", logical_name := "Cluster1",
    cfn_resource := false, mapping_key := "rds" }

/- Lemmas about the association-list operations and the handler's guard
structure. -/

/-- Reading back the key just written. -/
theorem alookup_aset_self {α : Type} (l : List (String × α)) (k : String) (v : α) :
    alookup (aset l k v) k = some v := by
  induction l with
  | nil => simp [aset, alookup]
  | cons hd tl ih =>
    rcases hd with ⟨k', w⟩
    by_cases h : k' = k
    · simp [aset, h, alookup]
    · simp [aset, h, alookup, ih]

/-- Writing one key leaves every other key unchanged. -/
theorem alookup_aset_ne {α : Type} (l : List (String × α)) (k k' : String) (v : α)
    (h : k' ≠ k) : alookup (aset l k v) k' = alookup l k' := by
  induction l with
  | nil => simp [aset, alookup, Ne.symm h]
  | cons hd tl ih =>
    rcases hd with ⟨k0, w⟩
    by_cases h0 : k0 = k
    · subst h0
      simp [aset, alookup, Ne.symm h]
    · simp [aset, h0, alookup, ih]

/-- A title differs from the instance title derived from it. -/
theorem ne_append_instance (t : String) : t ≠ t ++ "Instance" := by
  intro h
  have hd : t.data = t.data ++ ("Instance").data := congrArg String.data h
  have hl : t.data.length = t.data.length + 8 := by
    calc t.data.length = (t.data ++ ("Instance").data).length := by rw [← hd]
    _ = t.data.length + 8 := by simp
  omega

/-- With the `Namespace` key present, the handler is the three-guard
if-chain over the main path. -/
theorem handle_eq_of_ns (ns : PrivateNamespace) (res : XResource)
    (cs : CloudmapSettings) (gs : ComposeXSettings) (st : Stack) (nsv : String)
    (h : cs.Namespace = some nsv) :
    handle_resource_cloudmap_settings ns res cs gs st =
      (if nsv ≠ ns.name then ⟨st, [], RegOutcome.skippedNamespace⟩
       else if (!res.cfn_resource && !truthyFlag cs.ForceRegister) = true then
         ⟨st, [], RegOutcome.skippedLookup⟩
       else if (alookup st.stack_template.resources (serviceTitle res)).isSome = true then
         ⟨st, [], RegOutcome.skippedExists⟩
       else handle_core ns res cs gs st (serviceTitle res)) := by
  unfold handle_resource_cloudmap_settings
  rw [h]

/-- The service stored by `addServiceInstance` under the service title. -/
theorem serviceAt_addServiceInstance (stack : Stack) (title : String)
    (svc : ServiceObj) (inst : InstanceObj) :
    serviceAt (addServiceInstance stack title svc inst) title = some svc := by
  unfold serviceAt addServiceInstance
  rw [alookup_aset_ne _ _ _ _ (ne_append_instance title), alookup_aset_self]

/-- The instance stored by `addServiceInstance` under the instance title. -/
theorem instanceAt_addServiceInstance (stack : Stack) (title : String)
    (svc : ServiceObj) (inst : InstanceObj) :
    instanceAt (addServiceInstance stack title svc inst) (title ++ "Instance") =
      some inst := by
  unfold instanceAt addServiceInstance
  rw [alookup_aset_self]

/-- After `addServiceInstance`, the service title is taken. -/
theorem lookup_addServiceInstance_isSome (stack : Stack) (title : String)
    (svc : ServiceObj) (inst : InstanceObj) :
    (alookup (addServiceInstance stack title svc inst).stack_template.resources
      title).isSome = true := by
  unfold addServiceInstance
  rw [alookup_aset_ne _ _ _ _ (ne_append_instance title), alookup_aset_self]
  rfl

/-- The main path either propagates an exception with empty warnings, or
completes having added the Service/Instance pair. -/
theorem handle_core_cases (ns : PrivateNamespace) (res : XResource)
    (cs : CloudmapSettings) (gs : ComposeXSettings) (st : Stack) (title : String) :
    (∃ st1 e, handle_core ns res cs gs st title = ⟨st1, [], RegOutcome.raised e⟩) ∨
    (∃ st1 svc inst w, handle_core ns res cs gs st title =
      ⟨addServiceInstance st1 title svc inst, w, RegOutcome.completed⟩) := by
  unfold handle_core handle_after
  split
  · exact Or.inl ⟨_, _, rfl⟩
  · split
    · split
      · exact Or.inl ⟨_, _, rfl⟩
      · exact Or.inr ⟨_, _, _, _, rfl⟩
    · split
      · exact Or.inr ⟨_, _, _, _, rfl⟩
      · exact Or.inr ⟨_, _, _, _, rfl⟩

/-- A completed main path leaves the service title taken in the template. -/
theorem handle_core_completed (ns : PrivateNamespace) (res : XResource)
    (cs : CloudmapSettings) (gs : ComposeXSettings) (st : Stack) (title : String)
    (h : (handle_core ns res cs gs st title).outcome = RegOutcome.completed) :
    (alookup (handle_core ns res cs gs st title).stack.stack_template.resources
      title).isSome = true := by
  rcases handle_core_cases ns res cs gs st title with ⟨st1, e, hEq⟩ | ⟨st1, svc, inst, w, hEq⟩
  · rw [hEq] at h; simp at h
  · rw [hEq]; exact lookup_addServiceInstance_isSome st1 title svc inst

/-- Inversion of a completed call: the namespace matched, the eligibility
guard passed, the title was free, and the call reduced to the main path. -/
theorem handle_completed_main (ns : PrivateNamespace) (res : XResource)
    (cs : CloudmapSettings) (gs : ComposeXSettings) (st : Stack)
    (h : (handle_resource_cloudmap_settings ns res cs gs st).outcome =
      RegOutcome.completed) :
    cs.Namespace = some ns.name ∧
    (!res.cfn_resource && !truthyFlag cs.ForceRegister) = false ∧
    (alookup st.stack_template.resources (serviceTitle res)).isSome = false ∧
    handle_resource_cloudmap_settings ns res cs gs st =
      handle_core ns res cs gs st (serviceTitle res) := by
  cases hns : cs.Namespace with
  | none =>
    unfold handle_resource_cloudmap_settings at h
    rw [hns] at h
    simp at h
  | some nsv =>
    rw [handle_eq_of_ns ns res cs gs st nsv hns] at h
    by_cases h1 : nsv ≠ ns.name
    · rw [if_pos h1] at h; simp at h
    · rw [if_neg h1] at h
      by_cases h2 : (!res.cfn_resource && !truthyFlag cs.ForceRegister) = true
      · rw [if_pos h2] at h; simp at h
      · rw [if_neg h2] at h
        by_cases h3 : (alookup st.stack_template.resources (serviceTitle res)).isSome = true
        · rw [if_pos h3] at h; simp at h
        · rw [if_neg h3] at h
          have hv : nsv = ns.name := not_not.mp h1
          refine ⟨by rw [hv], by simpa using h2, by simpa using h3, ?_⟩
          rw [handle_eq_of_ns ns res cs gs st nsv hns, if_neg h1, if_neg h2, if_neg h3]

/-- Attribute keys untouched by `process_additional_attributes` keep their
previous binding. -/
theorem paa_lookup_notmem (additional : List (String × CfnValue)) (k : String) :
    ∀ attrs, (∀ kv ∈ additional, kv.1 ≠ k) →
      alookup (process_additional_attributes additional attrs) k = alookup attrs k := by
  induction additional with
  | nil => intro attrs _; rfl
  | cons hd tl ih =>
    intro attrs h
    rcases hd with ⟨k0, v0⟩
    unfold process_additional_attributes
    by_cases hs : strStarts k0 ("AWS_") = true
    · rw [if_pos hs]
      exact ih _ (fun kv hm => h kv (List.mem_cons_of_mem _ hm))
    · rw [if_neg hs]
      rw [ih _ (fun kv hm => h kv (List.mem_cons_of_mem _ hm))]
      exact alookup_aset_ne _ _ _ _ (Ne.symm (h (k0, v0) (List.mem_cons_self _ _)))

/-- Reserved keys are never written by `process_additional_attributes`. -/
theorem paa_aws_unchanged (additional : List (String × CfnValue)) (k : String)
    (hk : strStarts k ("AWS_") = true) :
    ∀ attrs, alookup (process_additional_attributes additional attrs) k = alookup attrs k := by
  induction additional with
  | nil => intro attrs; rfl
  | cons hd tl ih =>
    intro attrs
    rcases hd with ⟨k0, v0⟩
    unfold process_additional_attributes
    by_cases hs : strStarts k0 ("AWS_") = true
    · rw [if_pos hs]; exact ih _
    · rw [if_neg hs]
      rw [ih _]
      apply alookup_aset_ne
      intro he
      exact hs (he ▸ hk)

/-- Non-reserved entries of the additional-attributes dict land verbatim. -/
theorem paa_copied (additional : List (String × CfnValue)) (k : String) (v : CfnValue) :
    ∀ attrs, (additional.map Prod.fst).Nodup → (k, v) ∈ additional →
      strStarts k ("AWS_") = false →
      alookup (process_additional_attributes additional attrs) k = some v := by
  induction additional with
  | nil => intro attrs _ hmem _; simp at hmem
  | cons hd tl ih =>
    intro attrs hnd hmem hk
    rcases hd with ⟨k0, v0⟩
    rcases List.mem_cons.mp hmem with heq | hmem'
    · obtain ⟨rfl, rfl⟩ := Prod.ext_iff.mp heq
      unfold process_additional_attributes
      rw [if_neg (by simp [hk])]
      rw [paa_lookup_notmem tl k _ ?hne]
      · exact alookup_aset_self _ _ _
      case hne =>
        intro kv hm he
        have hmm : k ∈ tl.map Prod.fst := he ▸ List.mem_map_of_mem Prod.fst hm
        exact (List.nodup_cons.mp (by simpa using hnd)).1 hmm
    · have hnd' : (tl.map Prod.fst).Nodup := (List.nodup_cons.mp (by simpa using hnd)).2
      unfold process_additional_attributes
      by_cases hs : strStarts k0 ("AWS_") = true
      · rw [if_pos hs]; exact ih _ hnd' hmem' hk
      · rw [if_neg hs]; exact ih _ hnd' hmem' hk

/-- When the first unmatched `ReturnValues` key is reached, the loop stops
with the two-argument `KeyError` built from that key. -/
theorem prv_err_of_first_unmatched (resource : XResource) (settings : ComposeXSettings)
    (hok : resource.cfn_resource = true ∨
      (alookup settings.mappings resource.mapping_key).isSome = true) :
    ∀ (rvs : List (String × String)) (stack : Stack) (attrs : List (String × CfnValue))
      (k v : String),
      rvs.find? (fun kv => (findAttributeParam resource.attributes_outputs kv.1).isNone) =
        some (k, v) →
      (process_return_values resource settings rvs stack attrs).2.2 =
        some (returnValueErr resource k) := by
  intro rvs
  induction rvs with
  | nil => intro stack attrs k v h; simp [List.find?] at h
  | cons hd tl ih =>
    intro stack attrs k v hfirst
    rcases hd with ⟨hk, hv⟩
    rcases hfa : findAttributeParam resource.attributes_outputs hk with - | pr
    · simp only [List.find?, hfa, Option.isNone_none] at hfirst
      obtain ⟨rfl, rfl⟩ : hk = k ∧ hv = v := by
        simpa using hfirst
      simp only [process_return_values, hfa]
    · have hfirst' : tl.find?
          (fun kv => (findAttributeParam resource.attributes_outputs kv.1).isNone) =
            some (k, v) := by
        simpa [List.find?, hfa] using hfirst
      rcases pr with ⟨op, ptr⟩
      by_cases hc : resource.cfn_resource = true
      · simp only [process_return_values, hfa, if_pos hc]
        exact ih _ _ _ _ hfirst'
      · rcases hok with hcfn | hmap
        · exact absurd hcfn hc
        · obtain ⟨m, hm⟩ := Option.isSome_iff_exists.mp hmap
          simp only [process_return_values, hfa, if_neg hc, hm]
          exact ih _ _ _ _ hfirst'

/- Claim theorems. -/

/-- Claim C1: the claim states that for a DNS-supported resource with
`DnsSettings` applied, the attached Service has no `Type` field and has
`DnsConfig` set to a single CNAME record with TTL 15.  Evaluating the code
at such a registration shows the `DnsConfig` part holds, but the Service
keeps `Type = "HTTP"`: the source deletes the key from `service_props`
only after the Service object was already constructed from it (a dead
store), so the attached object retains the property. -/
theorem claim_C1_eval :
    c1run.outcome = RegOutcome.completed ∧
    serviceAt c1run.stack ("rdsCluster1Service") =
      some { Description := "db1",
             NamespaceId := CfnValue.ref ("CloudMapVPCNamespace"),
             Type_ := some ("HTTP"),
             DnsConfig := some { DnsRecords := [{ Type_ := "CNAME", TTL := "15" }],
                                 NamespaceId := CfnValue.noValue },
             Name := some ("db.svc.local") } :=
  ⟨rfl, rfl⟩

/-- Claim C2 counterexample: at the spec's end-to-end input (namespace
`ns1`, resource `rds.Cluster1`, settings with `ReturnValues
{Endpoint: DB_ENDPOINT}` and `DnsSettings: {}`), it is false that the
attached Service has no Type and a populated DnsConfig and that the
Instance's attributes contain `DB_ENDPOINT` and `AWS_INSTANCE_CNAME`. -/
theorem claim_C2_counterexample :
    ¬ (∃ svc, serviceAt c2run.stack ("rdsCluster1Service") = some svc ∧
        svc.Type_ = none ∧ svc.DnsConfig.isSome = true ∧
        ∃ i, instanceAt c2run.stack ("rdsCluster1ServiceInstance") = some i ∧
          (alookup i.InstanceAttributes ("DB_ENDPOINT")).isSome = true ∧
          (alookup i.InstanceAttributes ("AWS_INSTANCE_CNAME")).isSome = true) := by
  rintro ⟨svc, hs, hT, -⟩
  have hv : serviceAt c2run.stack ("rdsCluster1Service") =
      some { Description := "db1",
             NamespaceId := CfnValue.ref ("CloudMapVPCNamespace"),
             Type_ := some ("HTTP"), DnsConfig := none, Name := none } := rfl
  rw [hv] at hs
  obtain rfl := Option.some.inj hs
  exact Option.noConfusion hT

/-- Claim C2 (amended): on the spec's end-to-end input the template gains
resources titled `rdsCluster1Service` and `rdsCluster1ServiceInstance`, and
the import parameter is declared and recorded as a stack input; but the
Instance's attributes map the output key `Endpoint` (not `DB_ENDPOINT`) to
the parameter reference and contain no `AWS_INSTANCE_CNAME`, and — because
the empty `DnsSettings` dict is falsy for `keyisset` — the Service keeps
`Type = "HTTP"` and has no `DnsConfig` and no `Name`. -/
theorem claim_C2_amended_eval :
    c2run.outcome = RegOutcome.completed ∧
    serviceAt c2run.stack ("rdsCluster1Service") =
      some { Description := "db1",
             NamespaceId := CfnValue.ref ("CloudMapVPCNamespace"),
             Type_ := some ("HTTP"), DnsConfig := none, Name := none } ∧
    instanceAt c2run.stack ("rdsCluster1ServiceInstance") =
      some { InstanceAttributes := [("Endpoint", CfnValue.ref ("Cluster1Endpoint"))],
             ServiceId := CfnValue.ref ("rdsCluster1Service") } ∧
    c2run.stack.stack_template.parameters = [⟨"Cluster1Endpoint"⟩] ∧
    c2run.stack.Parameters = [("Cluster1Endpoint", CfnValue.importVal 0)] :=
  ⟨rfl, rfl, rfl, rfl, rfl⟩

/-- Claim C3: the claim states that a matched `ReturnValues` entry sets the
instance attribute named by the desired attribute name in both branches.
Evaluating both branches on `{Endpoint: DB_ENDPOINT}` shows the in-template
branch stores the attribute under the output key `Endpoint` (source line 116
uses `key`), while the looked-up branch stores it under the desired name
`DB_ENDPOINT` (source line 125 uses `value`); the rest of the claimed
effects (parameter declared, stack input recorded, mapping added) hold. -/
theorem claim_C3_eval :
    process_return_values c3res c3gs [("Endpoint", "DB_ENDPOINT")] ⟨{}, []⟩ [] =
      (⟨{ resources := [], parameters := [⟨"Cluster1Endpoint"⟩], mappings := [] },
        [("Cluster1Endpoint", CfnValue.importVal 0)]⟩,
       [("Endpoint", CfnValue.ref ("Cluster1Endpoint"))], none) ∧
    process_return_values c3resLookup c3gs [("Endpoint", "DB_ENDPOINT")] ⟨{}, []⟩ [] =
      (⟨{ resources := [], parameters := [], mappings := [("rds", 7)] }, []⟩,
       [("DB_ENDPOINT", CfnValue.importVal 0)], none) :=
  ⟨rfl, rfl⟩

/-- Claim C4: when a `ReturnValues` entry matches no output descriptor by
title or truthy alternate return-value name, `process_return_values` stops
with an error (no silent skip) whose payload is the message naming the
resource's module and name and the unmatched key, together with the list of
all valid output titles; the raised error is a Python `KeyError`, a
subclass of `LookupError`. -/
theorem claim_C4_unmatched_key (resource : XResource) (settings : ComposeXSettings)
    (rvs : List (String × String)) (stack : Stack) (attrs : List (String × CfnValue))
    (k v : String)
    (hfirst : rvs.find?
      (fun kv => (findAttributeParam resource.attributes_outputs kv.1).isNone) =
        some (k, v))
    (henv : resource.cfn_resource = true ∨
      (alookup settings.mappings resource.mapping_key).isSome = true) :
    (process_return_values resource settings rvs stack attrs).2.2 =
      some (PyErr.keyErrorArgs
        (resource.module_name ++ "." ++ resource.name ++ " - ReturnValue " ++ k
          ++ " not found. Available")
        (resource.attributes_outputs.map (fun p => p.1.title))) ∧
    (PyErr.keyErrorArgs
        (resource.module_name ++ "." ++ resource.name ++ " - ReturnValue " ++ k
          ++ " not found. Available")
        (resource.attributes_outputs.map (fun p => p.1.title))).isLookupError = true :=
  ⟨prv_err_of_first_unmatched resource settings henv rvs stack attrs k v hfirst, rfl⟩

/-- Claim C4 witness: on a resource whose only output is `Endpoint`, the
entry `{Nope: X}` makes the loop fail with the described payload. -/
theorem claim_C4_witness :
    (process_return_values c4res ⟨[]⟩ [("Nope", "X")] ⟨{}, []⟩ []).2.2 =
      some (PyErr.keyErrorArgs
        (c4res.module_name ++ "." ++ c4res.name ++ " - ReturnValue " ++ "Nope"
          ++ " not found. Available")
        (c4res.attributes_outputs.map (fun p => p.1.title))) ∧
    (PyErr.keyErrorArgs
        (c4res.module_name ++ "." ++ c4res.name ++ " - ReturnValue " ++ "Nope"
          ++ " not found. Available")
        (c4res.attributes_outputs.map (fun p => p.1.title))).isLookupError = true :=
  claim_C4_unmatched_key c4res ⟨[]⟩ [("Nope", "X")] ⟨{}, []⟩ [] "Nope" "X"
    (by decide) (Or.inl rfl)

/-- Claim C5: an `AdditionalAttributes` entry whose key starts with the
reserved `AWS_` prefix is never written (the previous binding of that key is
untouched), and an entry with any other key appears verbatim in the
resulting instance attributes. -/
theorem claim_C5_additional_attributes (additional : List (String × CfnValue))
    (attrs : List (String × CfnValue)) (k : String) (v : CfnValue)
    (hnodup : (additional.map Prod.fst).Nodup) :
    (strStarts k ("AWS_") = true →
      alookup (process_additional_attributes additional attrs) k = alookup attrs k) ∧
    ((k, v) ∈ additional → strStarts k ("AWS_") = false →
      alookup (process_additional_attributes additional attrs) k = some v) :=
  ⟨fun hk => paa_aws_unchanged additional k hk attrs,
   fun hmem hk => paa_copied additional k v attrs hnodup hmem hk⟩

/-- Claim C5 witness: the reserved entry `AWS_X` of the dict leaves the
prior binding intact, while the plain entry `color` lands verbatim. -/
theorem claim_C5_witness :
    alookup (process_additional_attributes c5add c5base) ("AWS_X") =
      alookup c5base ("AWS_X") ∧
    alookup (process_additional_attributes c5add c5base) ("color") =
      some (CfnValue.str ("blue")) :=
  ⟨(claim_C5_additional_attributes c5add c5base ("AWS_X") (CfnValue.str ("a"))
      (by decide)).1 (by decide),
   (claim_C5_additional_attributes c5add c5base ("color") (CfnValue.str ("blue"))
      (by decide)).2 (by decide) (by decide)⟩

/-- Claim C6: when the settings block names a different namespace, or the
resource is looked up and `ForceRegister` is not truthy, the handler leaves
the stack (template, parameters and stack inputs) unchanged and emits no
warning; the global settings are read-only throughout the embedding, so the
external mappings table is untouched as well. -/
theorem claim_C6_no_mutation (ns : PrivateNamespace) (res : XResource)
    (cs : CloudmapSettings) (gs : ComposeXSettings) (st : Stack) (nsv : String)
    (hns : cs.Namespace = some nsv)
    (h : nsv ≠ ns.name ∨ (res.cfn_resource = false ∧ truthyFlag cs.ForceRegister = false)) :
    (handle_resource_cloudmap_settings ns res cs gs st).stack = st ∧
    (handle_resource_cloudmap_settings ns res cs gs st).warnings = [] := by
  rw [handle_eq_of_ns ns res cs gs st nsv hns]
  rcases h with h | ⟨h1, h2⟩
  · rw [if_pos h]; exact ⟨rfl, rfl⟩
  · by_cases hnv : nsv ≠ ns.name
    · rw [if_pos hnv]; exact ⟨rfl, rfl⟩
    · rw [if_neg hnv, if_pos (by simp [h1, h2])]; exact ⟨rfl, rfl⟩

/-- Claim C6 witness: a settings block naming namespace `other` evaluated
against namespace `ns1` leaves the empty stack unchanged. -/
theorem claim_C6_witness :
    (handle_resource_cloudmap_settings c6ns c6res c6cs ⟨[]⟩ ⟨{}, []⟩).stack = ⟨{}, []⟩ ∧
    (handle_resource_cloudmap_settings c6ns c6res c6cs ⟨[]⟩ ⟨{}, []⟩).warnings = [] :=
  claim_C6_no_mutation c6ns c6res c6cs ⟨[]⟩ ⟨{}, []⟩ "other" rfl (Or.inl (by decide))

/-- Claim C7: if a call to the handler completes its main path, a second
call with identical inputs on the resulting stack hits the title-collision
guard — the deterministic Service title is already taken — and returns the
stack unchanged with no warnings, so two calls yield the same template state
as one. -/
theorem claim_C7_idempotent (ns : PrivateNamespace) (res : XResource)
    (cs : CloudmapSettings) (gs : ComposeXSettings) (st : Stack)
    (h : (handle_resource_cloudmap_settings ns res cs gs st).outcome =
      RegOutcome.completed) :
    handle_resource_cloudmap_settings ns res cs gs
        ((handle_resource_cloudmap_settings ns res cs gs st).stack) =
      ⟨(handle_resource_cloudmap_settings ns res cs gs st).stack, [],
        RegOutcome.skippedExists⟩ := by
  obtain ⟨hns, hg2, -, hEq⟩ := handle_completed_main ns res cs gs st h
  have hts : (alookup (handle_resource_cloudmap_settings ns res cs gs
      st).stack.stack_template.resources (serviceTitle res)).isSome = true := by
    rw [hEq] at h ⊢
    exact handle_core_completed ns res cs gs st (serviceTitle res) h
  generalize hS : (handle_resource_cloudmap_settings ns res cs gs st).stack = S at hts ⊢
  rw [handle_eq_of_ns ns res cs gs S ns.name hns]
  rw [if_neg (by simp), if_neg (by simp [hg2]), if_pos hts]

/-- Claim C7 witness: a minimal completed registration re-run on its own
output stack returns it unchanged via the collision guard. -/
theorem claim_C7_witness :
    handle_resource_cloudmap_settings c7ns c7res c7cs ⟨[]⟩
        ((handle_resource_cloudmap_settings c7ns c7res c7cs ⟨[]⟩ ⟨{}, []⟩).stack) =
      ⟨(handle_resource_cloudmap_settings c7ns c7res c7cs ⟨[]⟩ ⟨{}, []⟩).stack, [],
        RegOutcome.skippedExists⟩ :=
  claim_C7_idempotent c7ns c7res c7cs ⟨[]⟩ ⟨{}, []⟩ (by decide)

/-- Claim C8: in `process_dns_config` the hostname is the `Hostname` value
of the DNS settings when set and truthy, else the resource's logical name,
and the namespace's zone name is appended as `hostname.zoneName` exactly
when the zone name is not already a substring of the hostname; the result
becomes the Service's `Name`. -/
theorem claim_C8_hostname (ns : PrivateNamespace) (resource : XResource)
    (dns_settings : List (String × String)) (settings : ComposeXSettings)
    (service : ServiceObj) (inst : InstanceObj) (stack : Stack) :
    (strIn ns.zone_name (rawHostname resource dns_settings) = false →
      (process_dns_config ns resource dns_settings settings service inst stack).1.Name =
        some (rawHostname resource dns_settings ++ "." ++ ns.zone_name)) ∧
    (strIn ns.zone_name (rawHostname resource dns_settings) = true →
      (process_dns_config ns resource dns_settings settings service inst stack).1.Name =
        some (rawHostname resource dns_settings)) := by
  unfold process_dns_config
  constructor <;> intro h <;> simp only [h] <;>
    rcases resource.db_cluster_endpoint_param with - | p <;> simp <;>
    rcases lookupByParam resource.attributes_outputs p with - | ptr <;> simp <;>
    rcases hc : resource.cfn_resource <;> simp <;>
    rcases alookup settings.mappings resource.mapping_key with - | m <;> simp

/-- Claim C8 witness: with zone `example.com` and no `Hostname` the Service
Name is `db1.example.com`; with explicit `Hostname = db.example.com` it
stays `db.example.com`. -/
theorem claim_C8_witness :
    (process_dns_config c8ns c8res [] ⟨[]⟩ c8svc c8inst ⟨{}, []⟩).1.Name =
      some ("db1" ++ "." ++ "example.com") ∧
    (process_dns_config c8ns c8res [("Hostname", "db.example.com")] ⟨[]⟩ c8svc c8inst
        ⟨{}, []⟩).1.Name = some ("db.example.com") :=
  ⟨(claim_C8_hostname c8ns c8res [] ⟨[]⟩ c8svc c8inst ⟨{}, []⟩).1 (by decide),
   (claim_C8_hostname c8ns c8res [("Hostname", "db.example.com")] ⟨[]⟩ c8svc c8inst
      ⟨{}, []⟩).2 (by decide)⟩

/-- Claim C9: for a completed registration whose settings carry a truthy
`DnsSettings` dict while the resource does not support DNS discovery, the
handler emits exactly the warning naming the resource and module, the
attached Service keeps `Type = "HTTP"` and has no `DnsConfig`, and both the
Service and the Instance are still added to the template. -/
theorem claim_C9_dns_unsupported (ns : PrivateNamespace) (res : XResource)
    (cs : CloudmapSettings) (gs : ComposeXSettings) (st : Stack)
    (hdns : truthyDict cs.DnsSettings = true)
    (hsup : res.cloudmap_dns_supported = false)
    (hout : (handle_resource_cloudmap_settings ns res cs gs st).outcome =
      RegOutcome.completed) :
    (handle_resource_cloudmap_settings ns res cs gs st).warnings =
      [res.module_name ++ "." ++ res.name
        ++ " does not support DnsSettings for x-cloudmap."] ∧
    ∃ svc inst,
      serviceAt (handle_resource_cloudmap_settings ns res cs gs st).stack
          (serviceTitle res) = some svc ∧
      svc.Type_ = some ("HTTP") ∧ svc.DnsConfig = none ∧
      instanceAt (handle_resource_cloudmap_settings ns res cs gs st).stack
          (serviceTitle res ++ "Instance") = some inst := by
  obtain ⟨-, -, -, hEq⟩ := handle_completed_main ns res cs gs st hout
  rw [hEq] at hout ⊢
  rcases hrv : rvStep res cs gs st with ⟨stack1, attrs1, err⟩
  simp only [handle_core, hrv] at hout ⊢
  cases err with
  | some e => simp at hout
  | none =>
    simp only [handle_after, hsup, hdns, Bool.and_false, Bool.not_false, Bool.true_and,
      Bool.and_self, if_false, if_true] at hout ⊢
    refine ⟨?_, mkService ns res, mkInstance0 (effAttrs cs attrs1) (serviceTitle res),
      ?_, rfl, rfl, ?_⟩
    · simp [warnMsgFor]
    · exact serviceAt_addServiceInstance _ _ _ _
    · exact instanceAt_addServiceInstance _ _ _ _

/-- Claim C9 witness: registering the DNS-unsupported `s3.bucket1` with a
truthy `DnsSettings` dict emits the warning and still attaches the pair. -/
theorem claim_C9_witness :
    (handle_resource_cloudmap_settings c9ns c9res c9cs ⟨[]⟩ ⟨{}, []⟩).warnings =
      [c9res.module_name ++ "." ++ c9res.name
        ++ " does not support DnsSettings for x-cloudmap."] ∧
    ∃ svc inst,
      serviceAt (handle_resource_cloudmap_settings c9ns c9res c9cs ⟨[]⟩ ⟨{}, []⟩).stack
          (serviceTitle c9res) = some svc ∧
      svc.Type_ = some ("HTTP") ∧ svc.DnsConfig = none ∧
      instanceAt (handle_resource_cloudmap_settings c9ns c9res c9cs ⟨[]⟩ ⟨{}, []⟩).stack
          (serviceTitle c9res ++ "Instance") = some inst :=
  claim_C9_dns_unsupported c9ns c9res c9cs ⟨[]⟩ ⟨{}, []⟩ (by decide) rfl (by decide)

/-- Claim C10: when the settings dict has no `Namespace` key at all, the
handler raises `KeyError` for that key before any other check — for every
namespace, resource and stack the result is the unchanged stack with the
raised error, regardless of eligibility or collision guards. -/
theorem claim_C10_missing_namespace_raises (ns : PrivateNamespace) (res : XResource)
    (cs : CloudmapSettings) (gs : ComposeXSettings) (st : Stack)
    (h : cs.Namespace = none) :
    handle_resource_cloudmap_settings ns res cs gs st =
      ⟨st, [], RegOutcome.raised (PyErr.keyError ("Namespace"))⟩ := by
  unfold handle_resource_cloudmap_settings
  rw [h]

/-- Claim C10 witness: a settings dict carrying only `ForceRegister`, run
against a looked-up resource (which the eligibility guard would otherwise
skip), still raises the `KeyError` for `Namespace`. -/
theorem claim_C10_witness :
    handle_resource_cloudmap_settings c10ns c10res c10cs ⟨[]⟩ ⟨{}, []⟩ =
      ⟨⟨{}, []⟩, [], RegOutcome.raised (PyErr.keyError ("Namespace"))⟩ :=
  claim_C10_missing_namespace_raises c10ns c10res c10cs ⟨[]⟩ ⟨{}, []⟩ rfl
